import Mathlib

/-!
Shallow embedding of the multi-agent chat pipeline
(src/multiagent/agent_coordinator.py and
src/multiagent/multi_agent_chat_pipeline.py).

Python dictionaries holding agent configurations are embedded as
association lists `List (String × AgentConfig)`; dictionary lookup is
`List.lookup`, and Python truthiness of the dictionary (`not self.agent_configs`)
is `List.isEmpty`.  Optional JSON fields are `Option String`, where `none`
stands for an absent key; Python falsiness of an optional string
(`if not x`) is `none` or the empty string.  The blocking HTTP backend is
modelled by an explicit outcome value (`PostOutcome`) describing what the
network did, and Python exception control flow inside `_call_llm` is
embedded in an `Except PyExn` monad whose handlers are matched explicitly,
so that "no exception escapes" is a provable statement.  The coordinator
loop threads an explicit trace of backend invocations (the list of
(messages, model_id) pairs passed to `_call_llm`) so that claims about
which calls happen are statable.
-/

namespace Multiagent

/-- A chat message, as the `{"role": ..., "content": ...}` dictionaries the
code builds and forwards. -/
structure ChatMessage where
  role : String
  content : String
deriving DecidableEq, Repr

/-- One agent configuration, as parsed from `AGENT_CONFIGS_JSON`:
`system_prompt` and `model_id` are optional JSON keys (`none` = absent). -/
structure AgentConfig where
  system_prompt : Option String
  model_id : Option String
deriving DecidableEq, Repr

/-- One per-agent result dictionary `{"agent_id": ..., "response": ...}`. -/
structure AgentResult where
  agent_id : String
  response : String
deriving DecidableEq, Repr

/-- The pipeline valves (Pipeline.Valves).  The pydantic model always has all
four attributes as strings, so the `getattr(..., default)` accesses in the
coordinator reduce to plain field reads. -/
structure Valves where
  OPENAI_API_BASE_URL : String
  OPENAI_API_KEY : String
  DEFAULT_AGENT_MODEL_ID : String
  AGENT_CONFIGS_JSON : String
deriving DecidableEq, Repr

/-- The agent registry: `self.agent_configs`, a dictionary from agent id to
configuration. -/
def AgentRegistry := List (String × AgentConfig)

/-- A single-quote character as a string (for the error messages built with
f-strings in the source). -/
def sq : String := "\x27"

/-- The error response used for every agent when the registry is empty
(agent_coordinator.py line 98). -/
def notLoadedMsg : String :=
  "Error: Agent configurations not loaded in coordinator. Check pipeline valve setup."

/-- The per-agent error response when no configuration is found for an
agent id (agent_coordinator.py line 109). -/
def noConfigMsg (agent_id : String) : String :=
  "Error: No configuration found for agent_id " ++ sq ++ agent_id ++ sq ++ "."

/-- The generic fallback system prompt (agent_coordinator.py line 113). -/
def helpfulAssistantPrompt : String := "You are a helpful assistant."

/-- `agent_config.get("system_prompt", "You are a helpful assistant.")`:
the default applies only when the key is absent. -/
def systemPromptOf (cfg : AgentConfig) : String :=
  cfg.system_prompt.getD helpfulAssistantPrompt

/-- Model id resolution (agent_coordinator.py lines 115 to 119):
`agent_model_id = agent_config.get("model_id")`, then
`if not agent_model_id: agent_model_id = base_model_id`, then
`if not agent_model_id: agent_model_id = getattr(self.valves,
"DEFAULT_AGENT_MODEL_ID", "gpt-3.5-turbo")`.  Python falsiness of the
optional string is `none` or `""`. -/
def resolveModelId (cfg : AgentConfig) (base_model_id : String) (valves : Valves) : String :=
  match cfg.model_id with
  | none =>
      if base_model_id = "" then valves.DEFAULT_AGENT_MODEL_ID else base_model_id
  | some m =>
      if m = "" then
        (if base_model_id = "" then valves.DEFAULT_AGENT_MODEL_ID else base_model_id)
      else m

/-- The message context built per agent (agent_coordinator.py lines 123 to
129): one system message, then `chat_history[-4:]` in order, then one user
message with the user query.  Python `xs[-4:]` is `xs.drop (xs.length - 4)`. -/
def buildMessages (cfg : AgentConfig) (user_query : String)
    (chat_history : List ChatMessage) : List ChatMessage :=
  ChatMessage.mk "system" (systemPromptOf cfg)
    :: chat_history.drop (chat_history.length - 4)
    ++ [ChatMessage.mk "user" user_query]

/-- Whether a configuration is the empty dictionary.  Under the AgentConfig
data model (only the two keys the code ever reads), a configuration
dictionary is empty exactly when both of its optional keys are absent. -/
def AgentConfig.isEmptyDict (cfg : AgentConfig) : Bool :=
  cfg.system_prompt.isNone && cfg.model_id.isNone

/-- The body of the per-agent loop iteration (agent_coordinator.py lines 102
to 138), with the backend abstracted by the result function `llm`.  The
guard `if not agent_config:` at line 105 tests Python truthiness of the
value of `self.agent_configs.get(agent_id)`: it skips the agent both when
the key is absent (`get` returned None) and when the key maps to the empty
dictionary, which is falsy.  Returns the AgentResult appended for this
agent id together with the list of backend invocations (message context,
model id) made for it. -/
def processAgent (configs : List (String × AgentConfig)) (valves : Valves)
    (llm : List ChatMessage → String → String)
    (user_query : String) (chat_history : List ChatMessage)
    (base_model_id : String) (agent_id : String) :
    AgentResult × List (List ChatMessage × String) :=
  match configs.lookup agent_id with
  | none => (AgentResult.mk agent_id (noConfigMsg agent_id), [])
  | some cfg =>
      if cfg.isEmptyDict then
        (AgentResult.mk agent_id (noConfigMsg agent_id), [])
      else
        let msgs := buildMessages cfg user_query chat_history
        let model := resolveModelId cfg base_model_id valves
        (AgentResult.mk agent_id (llm msgs model), [(msgs, model)])

/-- `AgentCoordinator.manage_multi_agent_flow` (agent_coordinator.py lines 84
to 141).  First component: the returned `all_agent_results`; second
component: the trace of backend invocations, in order. -/
def manageMultiAgentFlow (configs : List (String × AgentConfig)) (valves : Valves)
    (llm : List ChatMessage → String → String)
    (user_query : String) (chat_history : List ChatMessage)
    (agent_ids : List String) (base_model_id : String) :
    List AgentResult × List (List ChatMessage × String) :=
  if configs.isEmpty then
    (agent_ids.map (fun agent_id => AgentResult.mk agent_id notLoadedMsg), [])
  else
    let per := agent_ids.map
      (processAgent configs valves llm user_query chat_history base_model_id)
    (per.map Prod.fst, (per.map Prod.snd).flatten)

/- ---------------------------------------------------------------------
The completion backend `_call_llm` (agent_coordinator.py lines 33 to 82).
--------------------------------------------------------------------- -/

/-- The `message` object of the first choice: `content` is an optional key,
defaulted to `""` by `.get("content", "")`. -/
structure RespMessage where
  content : Option String
deriving DecidableEq, Repr

/-- One element of the `choices` array: `message` is an optional key
(absent or falsy means the unexpected-structure branch). -/
structure RespChoice where
  message : Option RespMessage
deriving DecidableEq, Repr

/-- The decoded JSON payload of the backend response, restricted to the
parts `_call_llm` inspects: the `choices` value (an empty list also covers
an absent or falsy `choices` key) and `dump`, the `json.dumps` rendering of
the whole payload used in the unexpected-structure error message. -/
structure RespJson where
  choices : List RespChoice
  dump : String
deriving DecidableEq, Repr

/-- What `requests.post` returned: an HTTP status, the response body text,
and the result of `response.json()` (`none` = the body is malformed JSON, so
`.json()` raises). -/
structure HttpResponse where
  status : Nat
  text : String
  jsonBody : Option RespJson
deriving DecidableEq, Repr

/-- The outcome of the `requests.post` call itself: either it raised (network
failure, timeout, ...) with some description, or it returned a response. -/
inductive PostOutcome where
  | raises (desc : String)
  | returns (r : HttpResponse)
deriving DecidableEq, Repr

/-- The Python exceptions that can arise inside the `try` block of
`_call_llm`: `requests.exceptions.HTTPError` raised by `raise_for_status`
(always carrying the response it was raised from), and every other
exception, carried with its `str(e)` rendering. -/
inductive PyExn where
  | httpError (status : Nat) (body : String)
  | generic (desc : String)
deriving DecidableEq, Repr

/-- The `try` block of `_call_llm` (lines 59 to 72): post, raise_for_status,
decode JSON, check the response shape, extract and trim the content.
`raise_for_status` raises exactly for statuses in [400, 600). -/
def callLLMTryBody (post : PostOutcome) : Except PyExn String :=
  match post with
  | .raises d => .error (.generic d)
  | .returns r =>
      if 400 ≤ r.status ∧ r.status < 600 then
        .error (.httpError r.status r.text)
      else
        match r.jsonBody with
        | none => .error (.generic "invalid JSON response body")
        | some j =>
            match j.choices with
            | [] =>
                .ok ("Error: Unexpected LLM response structure. Full response: "
                      ++ j.dump)
            | c :: _ =>
                match c.message with
                | none =>
                    .ok ("Error: Unexpected LLM response structure. Full response: "
                          ++ j.dump)
                | some m => .ok ((m.content.getD "").trim)

/-- `AgentCoordinator._call_llm` (lines 33 to 82): the missing-key guard,
then the `try` block with its two `except` handlers made explicit.  The
HTTPError handler embeds the status and body of the response the error was
raised from; the catch-all handler embeds `str(e)`.  The value is
`Except.ok` exactly when no exception escapes the method. -/
def callLLM (valves : Valves) (messages : List ChatMessage) (model_id : String)
    (post : PostOutcome) : Except PyExn String :=
  if valves.OPENAI_API_KEY = "" then
    .ok "Error: OPENAI_API_KEY not configured."
  else
    match callLLMTryBody post with
    | .ok s => .ok s
    | .error (.httpError st body) =>
        .ok ("Error: HTTP error " ++ toString st ++ " - " ++ body)
    | .error (.generic d) =>
        .ok ("Error: An unexpected error occurred during LLM call: " ++ d)

/- ---------------------------------------------------------------------
The hosting pipeline (multi_agent_chat_pipeline.py).
--------------------------------------------------------------------- -/

/-- Registry construction from a configuration blob: the blob is parsed by
`json.loads`; the embedding takes the outcome of that external parse
directly (`none` = `json.JSONDecodeError`).  Used by the coordinator
constructor (agent_coordinator.py lines 20 to 30). -/
def loadRegistry (parsed : Option (List (String × AgentConfig))) :
    List (String × AgentConfig) :=
  match parsed with
  | some cfgs => cfgs
  | none => []

/-- `Pipeline.on_valves_updated` (multi_agent_chat_pipeline.py lines 62 to
77), restricted to its effect on the registry: the old registry value is
replaced by the parse of the new blob, and a decode failure is handled by
installing the empty registry; no exception escapes. -/
def onValvesUpdated (oldConfigs : List (String × AgentConfig))
    (parsed : Option (List (String × AgentConfig))) :
    List (String × AgentConfig) :=
  match parsed with
  | some cfgs => cfgs
  | none => []

/-- `base_model_id = model_id if model_id else self.valves.DEFAULT_AGENT_MODEL_ID`
(multi_agent_chat_pipeline.py line 91). -/
def baseModelIdFor (valves : Valves) (model_id : String) : String :=
  if model_id = "" then valves.DEFAULT_AGENT_MODEL_ID else model_id

/-- The `agent_ids` value carried by the request body: absent, present but
not a list of strings, or a valid list of strings. -/
inductive BodyAgentIds where
  | absent
  | invalid
  | valid (ids : List String)
deriving DecidableEq, Repr

/-- The fixed default pair of agent ids (multi_agent_chat_pipeline.py line 94). -/
def defaultAgentIdsToRun : List String := ["analyst_agent_v1", "default_responder"]

/-- `body.get("agent_ids", default)` followed by the isinstance validation
(multi_agent_chat_pipeline.py lines 95 to 99). -/
def agentIdsToRun (body : BodyAgentIds) : List String :=
  match body with
  | .valid ids => ids
  | .absent => defaultAgentIdsToRun
  | .invalid => defaultAgentIdsToRun

/-- `Pipeline.pipe` (multi_agent_chat_pipeline.py lines 79 to 114):
coordinator-missing guard, base model substitution, agent id selection and
validation, empty-list short circuit, then the coordinator call.  The
coordinator argument is `none` when `AgentCoordinator` failed to construct.
The second component is the backend invocation trace, as in
`manageMultiAgentFlow`. -/
def pipe (coordinator : Option (List (String × AgentConfig))) (valves : Valves)
    (llm : List ChatMessage → String → String)
    (user_message : String) (model_id : String) (messages : List ChatMessage)
    (body : BodyAgentIds) :
    List AgentResult × List (List ChatMessage × String) :=
  match coordinator with
  | none =>
      ([AgentResult.mk "system_error" "Coordinator not initialized. Cannot process request."], [])
  | some configs =>
      let base_model_id := baseModelIdFor valves model_id
      let agent_ids_to_run := agentIdsToRun body
      if agent_ids_to_run = [] then
        ([AgentResult.mk "system_message" "No agents were specified to process this request."], [])
      else
        manageMultiAgentFlow configs valves llm user_message messages
          agent_ids_to_run base_model_id

/- ---------------------------------------------------------------------
Helper lemmas.
--------------------------------------------------------------------- -/

theorem isEmpty_false_of_ne_nil {α : Type} {l : List α} (h : l ≠ []) :
    l.isEmpty = false := by
  cases l with
  | nil => exact absurd rfl h
  | cons a t => rfl

theorem ne_nil_of_lookup_some {aid : String} {cfg : AgentConfig}
    {configs : List (String × AgentConfig)}
    (h : configs.lookup aid = some cfg) : configs ≠ [] := by
  intro hnil
  rw [hnil] at h
  exact Option.noConfusion h

theorem processAgent_fst_agent_id (configs : List (String × AgentConfig))
    (valves : Valves) (llm : List ChatMessage → String → String)
    (q : String) (hist : List ChatMessage) (base : String) (aid : String) :
    (processAgent configs valves llm q hist base aid).1.agent_id = aid := by
  unfold processAgent
  cases configs.lookup aid with
  | none => rfl
  | some cfg =>
      by_cases hc : cfg.isEmptyDict = true
      · simp [hc]
      · simp [hc]

theorem processAgent_of_lookup_some {configs : List (String × AgentConfig)}
    {aid : String} {cfg : AgentConfig}
    (valves : Valves) (llm : List ChatMessage → String → String)
    (q : String) (hist : List ChatMessage) (base : String)
    (h : configs.lookup aid = some cfg) (ht : cfg.isEmptyDict = false) :
    processAgent configs valves llm q hist base aid
      = (AgentResult.mk aid (llm (buildMessages cfg q hist) (resolveModelId cfg base valves)),
         [(buildMessages cfg q hist, resolveModelId cfg base valves)]) := by
  unfold processAgent
  rw [h]
  simp [ht]

theorem manageMultiAgentFlow_ne_nil {configs : List (String × AgentConfig)}
    (valves : Valves) (llm : List ChatMessage → String → String)
    (q : String) (hist : List ChatMessage) (ids : List String) (base : String)
    (h : configs ≠ []) :
    manageMultiAgentFlow configs valves llm q hist ids base
      = ((ids.map (processAgent configs valves llm q hist base)).map Prod.fst,
         ((ids.map (processAgent configs valves llm q hist base)).map Prod.snd).flatten) := by
  unfold manageMultiAgentFlow
  rw [isEmpty_false_of_ne_nil h]
  rfl

/- ---------------------------------------------------------------------
Shared concrete instances used by the witnesses.
--------------------------------------------------------------------- -/

def valvesW : Valves :=
  Valves.mk "https://api.openai.com/v1" "key" "m3" "()"

def llmW : List ChatMessage → String → String := fun _ _ => "hello"

def cfgW : AgentConfig := AgentConfig.mk (some "P") (some "m1")

/- ---------------------------------------------------------------------
Claim theorems.
--------------------------------------------------------------------- -/

/-- Claim C1: for every agent id list, registry, valves and backend, the
output of `manageMultiAgentFlow` has exactly one result per input agent id,
in the same order and with the same multiplicity: mapping each result to
its `agent_id` recovers the input list, and in particular the lengths
agree. -/
theorem claim1_one_result_per_agent_in_order
    (configs : List (String × AgentConfig)) (valves : Valves)
    (llm : List ChatMessage → String → String)
    (q : String) (hist : List ChatMessage) (ids : List String) (base : String) :
    (manageMultiAgentFlow configs valves llm q hist ids base).1.map
        (fun r => r.agent_id) = ids
    ∧ (manageMultiAgentFlow configs valves llm q hist ids base).1.length
        = ids.length := by
  have hmap : (manageMultiAgentFlow configs valves llm q hist ids base).1.map
      (fun r => r.agent_id) = ids := by
    cases hc : configs.isEmpty with
    | true =>
        have hnil : configs = [] := by
          cases configs with
          | nil => rfl
          | cons a t => simp [List.isEmpty] at hc
        subst hnil
        simp only [manageMultiAgentFlow, List.isEmpty_nil, ite_true, List.map_map]
        have hcomp : ((fun r => r.agent_id) ∘
            fun agent_id => AgentResult.mk agent_id notLoadedMsg)
              = fun a : String => a := by
          funext a
          rfl
        rw [hcomp]
        simp
    | false =>
        have hne : configs ≠ [] := by
          intro hnil
          rw [hnil] at hc
          exact Bool.noConfusion hc
        rw [manageMultiAgentFlow_ne_nil valves llm q hist ids base hne]
        simp only [List.map_map]
        have hpt : ∀ aid ∈ ids,
            ((fun r => r.agent_id) ∘ Prod.fst ∘
              processAgent configs valves llm q hist base) aid = aid := by
          intro aid _
          simpa using processAgent_fst_agent_id configs valves llm q hist base aid
        rw [List.map_congr_left hpt]
        simp
  refine ⟨hmap, ?_⟩
  have := congrArg List.length hmap
  simpa using this

/-- Claim C4: with an empty registry, every requested agent id yields the
fixed "configurations not loaded" error result, in order, and the backend
trace is empty (the backend is never invoked); the emptiness test is the
first thing the flow does, before the per-agent loop. -/
theorem claim4_empty_registry_short_circuit
    (valves : Valves) (llm : List ChatMessage → String → String)
    (q : String) (hist : List ChatMessage) (ids : List String) (base : String)
    (hids : ids ≠ []) :
    (manageMultiAgentFlow [] valves llm q hist ids base).1
        = ids.map (fun aid => AgentResult.mk aid notLoadedMsg)
    ∧ (manageMultiAgentFlow [] valves llm q hist ids base).2 = [] := by
  constructor <;> rfl

theorem claim4_empty_registry_short_circuit_witness :
    ((["a", "b"] : List String) ≠ []
    ∧ (manageMultiAgentFlow [] valvesW llmW "q" [] ["a", "b"] "m").1
        = [AgentResult.mk "a" notLoadedMsg, AgentResult.mk "b" notLoadedMsg]
    ∧ (manageMultiAgentFlow [] valvesW llmW "q" [] ["a", "b"] "m").2 = []) := by
  refine ⟨by decide, ?_, ?_⟩
  · exact (claim4_empty_registry_short_circuit valvesW llmW "q" [] ["a", "b"] "m"
      (by decide)).1
  · exact (claim4_empty_registry_short_circuit valvesW llmW "q" [] ["a", "b"] "m"
      (by decide)).2

/-- Claim C5: in a non-empty registry, an agent id with no configuration
yields, at its position, a result carrying the error message that names the
missing id, contributes no backend invocation, and the remaining agent ids
before and after it are processed exactly as they would be on their own. -/
theorem claim5_missing_agent_continues
    {configs : List (String × AgentConfig)} {aid : String}
    (valves : Valves) (llm : List ChatMessage → String → String)
    (q : String) (hist : List ChatMessage) (base : String)
    (ids₁ ids₂ : List String)
    (hne : configs ≠ [])
    (habs : configs.lookup aid = none) :
    (manageMultiAgentFlow configs valves llm q hist (ids₁ ++ aid :: ids₂) base).1
      = (manageMultiAgentFlow configs valves llm q hist ids₁ base).1
        ++ AgentResult.mk aid (noConfigMsg aid)
          :: (manageMultiAgentFlow configs valves llm q hist ids₂ base).1
    ∧ (manageMultiAgentFlow configs valves llm q hist (ids₁ ++ aid :: ids₂) base).2
      = (manageMultiAgentFlow configs valves llm q hist ids₁ base).2
        ++ (manageMultiAgentFlow configs valves llm q hist ids₂ base).2 := by
  have hproc : processAgent configs valves llm q hist base aid
      = (AgentResult.mk aid (noConfigMsg aid), []) := by
    unfold processAgent
    rw [habs]
  rw [manageMultiAgentFlow_ne_nil valves llm q hist (ids₁ ++ aid :: ids₂) base hne,
      manageMultiAgentFlow_ne_nil valves llm q hist ids₁ base hne,
      manageMultiAgentFlow_ne_nil valves llm q hist ids₂ base hne]
  constructor
  · simp [hproc]
  · simp [hproc]

theorem claim5_missing_agent_continues_witness :
    (([("b", cfgW)] : List (String × AgentConfig)) ≠ []
    ∧ ([("b", cfgW)] : List (String × AgentConfig)).lookup "a" = none
    ∧ (manageMultiAgentFlow [("b", cfgW)] valvesW llmW "q" [] (["b"] ++ "a" :: ["b"]) "m").1
      = (manageMultiAgentFlow [("b", cfgW)] valvesW llmW "q" [] ["b"] "m").1
        ++ AgentResult.mk "a" (noConfigMsg "a")
          :: (manageMultiAgentFlow [("b", cfgW)] valvesW llmW "q" [] ["b"] "m").1) := by
  refine ⟨by decide, by decide, ?_⟩
  exact (claim5_missing_agent_continues valvesW llmW "q" [] "m" ["b"] ["b"]
    (by decide) (by decide)).1

/-- Claim C2 counterexample: an agent id found in the registry but mapped to
the empty configuration dictionary is skipped by the truthiness guard at
line 105: the flow emits the no-configuration error for it and makes zero
backend invocations, so no model id is passed to the backend at all. -/
theorem claim2_counterexample_empty_config_no_call :
    ([("a", AgentConfig.mk none none)] : List (String × AgentConfig)).lookup "a"
        = some (AgentConfig.mk none none)
    ∧ (manageMultiAgentFlow [("a", AgentConfig.mk none none)] valvesW llmW
          "q" [] ["a"] "m2").2 = []
    ∧ (manageMultiAgentFlow [("a", AgentConfig.mk none none)] valvesW llmW
          "q" [] ["a"] "m2").1 = [AgentResult.mk "a" (noConfigMsg "a")] := by
  refine ⟨by decide, rfl, rfl⟩

/-- Claim C2 (amended): for an agent id found in the registry with a
non-empty (truthy) configuration, the loop body invokes the backend exactly
once, with the model id resolved by the three-level priority: the
configuration's own `model_id` when present and non-empty, else the request
base model id when non-empty, else the process-wide default model id.  An
agent id mapped to the empty configuration dictionary is skipped with a
no-configuration error and no backend call. -/
theorem claim2_model_resolution_priority
    {configs : List (String × AgentConfig)} {aid : String} {cfg : AgentConfig}
    (valves : Valves) (llm : List ChatMessage → String → String)
    (q : String) (hist : List ChatMessage) (base : String)
    (h : configs.lookup aid = some cfg) (ht : cfg.isEmptyDict = false) :
    (processAgent configs valves llm q hist base aid).2
        = [(buildMessages cfg q hist, resolveModelId cfg base valves)]
    ∧ (∀ m, cfg.model_id = some m → m ≠ "" → resolveModelId cfg base valves = m)
    ∧ ((cfg.model_id = none ∨ cfg.model_id = some "") → base ≠ "" →
        resolveModelId cfg base valves = base)
    ∧ ((cfg.model_id = none ∨ cfg.model_id = some "") → base = "" →
        resolveModelId cfg base valves = valves.DEFAULT_AGENT_MODEL_ID) := by
  refine ⟨?_, ?_, ?_, ?_⟩
  · rw [processAgent_of_lookup_some valves llm q hist base h ht]
  · intro m hm hne
    simp [resolveModelId, hm, hne]
  · rintro (hm | hm) hb <;> simp [resolveModelId, hm, hb]
  · rintro (hm | hm) hb <;> simp [resolveModelId, hm, hb]

theorem claim2_model_resolution_priority_witness :
    (([("a", cfgW)] : List (String × AgentConfig)).lookup "a" = some cfgW
    ∧ cfgW.isEmptyDict = false
    ∧ resolveModelId cfgW "m2" valvesW = "m1"
    ∧ resolveModelId (AgentConfig.mk (some "P") none) "m2" valvesW = "m2"
    ∧ resolveModelId (AgentConfig.mk (some "P") none) "" valvesW = "m3") := by
  refine ⟨by decide, by decide, ?_, ?_, ?_⟩
  · exact (claim2_model_resolution_priority valvesW llmW "q" [] "m2"
      (show ([("a", cfgW)] : List (String × AgentConfig)).lookup "a" = some cfgW
        by decide) (by decide)).2.1 "m1" rfl (by decide)
  · exact (claim2_model_resolution_priority valvesW llmW "q" [] "m2"
      (show ([("a", AgentConfig.mk (some "P") none)] :
          List (String × AgentConfig)).lookup "a" = some (AgentConfig.mk (some "P") none)
        by decide) (by decide)).2.2.1 (Or.inl rfl) (by decide)
  · exact (claim2_model_resolution_priority valvesW llmW "q" [] ""
      (show ([("a", AgentConfig.mk (some "P") none)] :
          List (String × AgentConfig)).lookup "a" = some (AgentConfig.mk (some "P") none)
        by decide) (by decide)).2.2.2 (Or.inl rfl) rfl

/-- Claim C3 counterexample: an agent id found in the registry but mapped to
the empty configuration dictionary is skipped by the truthiness guard at
line 105, even with a non-empty history: no message context is built and
nothing is passed to the backend for it. -/
theorem claim3_counterexample_empty_config_no_context :
    ([("b", AgentConfig.mk none none)] : List (String × AgentConfig)).lookup "b"
        = some (AgentConfig.mk none none)
    ∧ (manageMultiAgentFlow [("b", AgentConfig.mk none none)] valvesW llmW
          "q" [ChatMessage.mk "user" "h1"] ["b"] "m2").2 = []
    ∧ (manageMultiAgentFlow [("b", AgentConfig.mk none none)] valvesW llmW
          "q" [ChatMessage.mk "user" "h1"] ["b"] "m2").1
        = [AgentResult.mk "b" (noConfigMsg "b")] := by
  refine ⟨by decide, rfl, rfl⟩

/-- Claim C3 (amended): for an agent id found in the registry with a
non-empty (truthy) configuration, the message context passed to the backend
is one system message, then a window that is a suffix of the history of
length `min 4 (length history)` (so exactly the last four entries, or all
of them when the history is shorter), in their original order, then one
user message holding the user query.  An agent id mapped to the empty
configuration dictionary is skipped: no context is built for it. -/
theorem claim3_history_window
    {configs : List (String × AgentConfig)} {aid : String} {cfg : AgentConfig}
    (valves : Valves) (llm : List ChatMessage → String → String)
    (q : String) (hist : List ChatMessage) (base : String)
    (h : configs.lookup aid = some cfg) (ht : cfg.isEmptyDict = false) :
    ∃ window : List ChatMessage,
      (processAgent configs valves llm q hist base aid).2
        = [(ChatMessage.mk "system" (systemPromptOf cfg)
              :: window ++ [ChatMessage.mk "user" q],
            resolveModelId cfg base valves)]
      ∧ window.IsSuffix hist
      ∧ window.length = min 4 hist.length := by
  refine ⟨hist.drop (hist.length - 4), ?_, ?_, ?_⟩
  · rw [processAgent_of_lookup_some valves llm q hist base h ht]
    rfl
  · exact List.drop_suffix _ _
  · rw [List.length_drop]
    omega

def histW : List ChatMessage :=
  [ChatMessage.mk "user" "h1", ChatMessage.mk "assistant" "h2",
   ChatMessage.mk "user" "h3", ChatMessage.mk "assistant" "h4",
   ChatMessage.mk "user" "h5", ChatMessage.mk "assistant" "h6"]

theorem claim3_history_window_witness :
    ∃ window : List ChatMessage,
      (processAgent [("a", cfgW)] valvesW llmW "q" histW "m2" "a").2
        = [(ChatMessage.mk "system" (systemPromptOf cfgW)
              :: window ++ [ChatMessage.mk "user" "q"],
            resolveModelId cfgW "m2" valvesW)]
      ∧ window.IsSuffix histW
      ∧ window.length = min 4 histW.length :=
  claim3_history_window valvesW llmW "q" histW "m2"
    (show ([("a", cfgW)] : List (String × AgentConfig)).lookup "a" = some cfgW
      by decide) (by decide)

/-- Claim C6: for every valves value, message list, model id and backend
outcome, `callLLM` returns an `Except.ok` string: the missing-key guard,
the HTTPError handler and the catch-all handler map every error class in
the model to a plain string result, so no exception escapes the call. -/
theorem claim6_call_llm_never_raises
    (valves : Valves) (messages : List ChatMessage) (model_id : String)
    (post : PostOutcome) :
    ∃ s : String, callLLM valves messages model_id post = Except.ok s := by
  unfold callLLM
  split
  · exact ⟨_, rfl⟩
  · cases h : callLLMTryBody post with
    | ok s => exact ⟨s, rfl⟩
    | error e =>
        cases e with
        | httpError st body => exact ⟨_, rfl⟩
        | generic d => exact ⟨_, rfl⟩

/-- Claim C7: the valve-update hook replaces the registry by the parse of
the new blob, ignoring the previous registry value entirely: reloading an
invalid blob after loading a registry containing key `a` leaves the empty
registry, and in general the reloaded registry equals the freshly loaded
one regardless of the prior state; a decode failure is absorbed, not
raised. -/
theorem claim7_reload_full_replacement (a : String) (cfg : AgentConfig) :
    onValvesUpdated (loadRegistry (some [(a, cfg)])) none = []
    ∧ (∀ old parsed, onValvesUpdated old parsed = loadRegistry parsed) := by
  constructor
  · rfl
  · intro old parsed
    cases parsed <;> rfl

/-- Claim C8: whenever the effective agent id list of the request is empty,
`pipe` returns the single informational "no agents specified" entry (never
an empty sequence), for every registry value including the empty one, and
the backend trace is empty: the short circuit precedes the registry
emptiness check of the coordinator, which is not reached. -/
theorem claim8_empty_agent_ids_info_entry
    (configs : List (String × AgentConfig)) (valves : Valves)
    (llm : List ChatMessage → String → String)
    (q mid : String) (hist : List ChatMessage) (body : BodyAgentIds)
    (hb : agentIdsToRun body = []) :
    pipe (some configs) valves llm q mid hist body
      = ([AgentResult.mk "system_message"
            "No agents were specified to process this request."], []) := by
  unfold pipe
  simp only [hb, ite_true]

theorem claim8_empty_agent_ids_info_entry_witness :
    agentIdsToRun (BodyAgentIds.valid []) = []
    ∧ pipe (some []) valvesW llmW "q" "" [] (BodyAgentIds.valid [])
      = ([AgentResult.mk "system_message"
            "No agents were specified to process this request."], []) :=
  ⟨rfl, claim8_empty_agent_ids_info_entry [] valvesW llmW "q" "" []
    (BodyAgentIds.valid []) rfl⟩

/-- Claim C9 counterexample: an AgentConfig whose `system_prompt` is present
but equal to the empty string yields an empty system message, not the
generic assistant prompt: `dict.get` with a default falls back only when
the key is absent. -/
theorem claim9_counterexample_empty_prompt_kept :
    buildMessages (AgentConfig.mk (some "") (some "m1")) "q" []
      = [ChatMessage.mk "system" "", ChatMessage.mk "user" "q"]
    ∧ systemPromptOf (AgentConfig.mk (some "") (some "m1"))
        ≠ helpfulAssistantPrompt := by
  constructor
  · rfl
  · decide

/-- Claim C9 (amended): only when `system_prompt` is absent does the system
message of the built context fall back to the generic assistant prompt; a
present value, the empty string included, is used verbatim. -/
theorem claim9_absent_prompt_fallback
    (cfg : AgentConfig) (q : String) (hist : List ChatMessage)
    (h : cfg.system_prompt = none) :
    systemPromptOf cfg = helpfulAssistantPrompt
    ∧ buildMessages cfg q hist
      = ChatMessage.mk "system" helpfulAssistantPrompt
          :: hist.drop (hist.length - 4) ++ [ChatMessage.mk "user" q] := by
  have hp : systemPromptOf cfg = helpfulAssistantPrompt := by
    unfold systemPromptOf
    rw [h]
    rfl
  refine ⟨hp, ?_⟩
  unfold buildMessages
  rw [hp]

theorem claim9_absent_prompt_fallback_witness :
    (AgentConfig.mk none (some "m1")).system_prompt = none
    ∧ systemPromptOf (AgentConfig.mk none (some "m1")) = helpfulAssistantPrompt :=
  ⟨rfl, (claim9_absent_prompt_fallback (AgentConfig.mk none (some "m1")) "q" [] rfl).1⟩

/-- Claim C10: when the DEFAULT_AGENT_MODEL_ID valve is non-empty, the base
model id that `pipe` forwards to the coordinator is never empty (an empty
inbound model id is substituted with the valve value), so the third level
of the model resolution never fires: the resolution collapses to the
two-level form using only the configuration override and the forwarded
base, and when the substitution happened, level (b) returns exactly the
valve value that level (c) would return. -/
theorem claim10_base_model_substitution
    (valves : Valves) (mid : String)
    (hv : valves.DEFAULT_AGENT_MODEL_ID ≠ "") :
    baseModelIdFor valves mid ≠ ""
    ∧ (mid = "" → baseModelIdFor valves mid = valves.DEFAULT_AGENT_MODEL_ID)
    ∧ (∀ cfg : AgentConfig, resolveModelId cfg (baseModelIdFor valves mid) valves
        = match cfg.model_id with
          | some m => if m = "" then baseModelIdFor valves mid else m
          | none => baseModelIdFor valves mid)
    ∧ (∀ (configs : List (String × AgentConfig))
        (llm : List ChatMessage → String → String)
        (q : String) (hist : List ChatMessage) (ids : List String), ids ≠ [] →
        pipe (some configs) valves llm q mid hist (BodyAgentIds.valid ids)
          = manageMultiAgentFlow configs valves llm q hist ids
              (baseModelIdFor valves mid)) := by
  have hbase : baseModelIdFor valves mid ≠ "" := by
    unfold baseModelIdFor
    by_cases hm : mid = ""
    · rw [if_pos hm]
      exact hv
    · rw [if_neg hm]
      exact hm
  refine ⟨hbase, ?_, ?_, ?_⟩
  · intro hm
    unfold baseModelIdFor
    rw [if_pos hm]
  · intro cfg
    cases hc : cfg.model_id with
    | none => simp [resolveModelId, hc, hbase]
    | some m =>
        by_cases hm : m = ""
        · simp [resolveModelId, hc, hm, hbase]
        · simp [resolveModelId, hc, hm]
  · intro configs llm q hist ids hids
    unfold pipe
    simp only [agentIdsToRun, if_neg hids]

theorem claim10_base_model_substitution_witness :
    valvesW.DEFAULT_AGENT_MODEL_ID ≠ ""
    ∧ baseModelIdFor valvesW "" = valvesW.DEFAULT_AGENT_MODEL_ID :=
  ⟨by decide, (claim10_base_model_substitution valvesW "" (by decide)).2.1 rfl⟩

end Multiagent
